import Mathlib

/-!
Shallow embedding of the file-transfer plugin
(`src/plugins/file_transfer_plugin.py`) of the phl-airflow repository,
together with theorems settling the specification claims about it.

Conventions:
* Python byte strings are `List Nat` (one `Nat` per byte); text strings are
  Lean `String`.
* Fallible Python code is embedded as `Except`-valued functions, or as a
  `state × Option error` pair when the claim is about what the code mutated
  before failing.
* External collaborators (the pysftp connection, the spawned transform
  command, the remote FTP server) are embedded as explicit parameters, so
  every definition stays executable.
-/

set_option autoImplicit false

namespace PhlAirflow

/-! ## Python path and pattern primitives

These embed the Python standard-library functions the plugin calls:
`os.path.split`, `str.rstrip('/')` and `fnmatch.fnmatch`. They are modelled
from the documented behaviour of those library functions (on POSIX, which is
where the pipeline runs), restricted to the fragments the plugin uses: the
`fnmatch` model supports the `*` and `?` wildcards and literal characters;
character-class patterns are used nowhere in the repository or the claims.
-/

/-- `fnmatchAux fuel pat s`: shell-style wildcard matching of pattern `pat`
against string `s`, as lists of characters. `*` matches any run of
characters, `?` matches exactly one character, anything else matches
itself. Structural recursion on a fuel counter so that the function
reduces in the kernel; every recursive call shrinks `pat.length +
s.length`, so any fuel above that bound computes the true answer. -/
def fnmatchAux : Nat → List Char → List Char → Bool
  | 0, _, _ => false
  | _ + 1, [], [] => true
  | fuel + 1, '*' :: ps, [] => fnmatchAux fuel ps []
  | _ + 1, _ :: _, [] => false
  | _ + 1, [], _ :: _ => false
  | fuel + 1, '*' :: ps, c :: cs =>
      fnmatchAux fuel ps (c :: cs) || fnmatchAux fuel ('*' :: ps) cs
  | fuel + 1, '?' :: ps, _ :: cs => fnmatchAux fuel ps cs
  | fuel + 1, p :: ps, c :: cs => p == c && fnmatchAux fuel ps cs

/-- Embeds `fnmatch.fnmatch(name, pattern)` (case normalization is the
identity on POSIX). -/
def fnmatch (name pattern : String) : Bool :=
  fnmatchAux (pattern.length + name.length + 1) pattern.toList name.toList

/-- Embeds `os.path.split(p)` for POSIX paths: splits at the final slash;
the head keeps no trailing slashes unless it consists only of slashes. -/
def posixSplit (p : String) : String × String :=
  let rev := p.toList.reverse
  let tail := (rev.takeWhile (fun c => c != '/')).reverse
  let revHead := rev.dropWhile (fun c => c != '/')
  let head :=
    if revHead.all (fun c => c == '/') then revHead.reverse
    else (revHead.dropWhile (fun c => c == '/')).reverse
  (String.mk head, String.mk tail)

/-- Embeds `p.rstrip('/')`. -/
def rstripSlashes (p : String) : String :=
  String.mk (p.toList.reverse.dropWhile (fun c => c == '/')).reverse

example : posixSplit "/data/report.csv" = ("/data", "report.csv") := by decide
example : posixSplit "report.csv" = ("", "report.csv") := by decide
example : fnmatch "report_2024.csv" "report_*.csv" = true := by decide
example : fnmatch "report_2024.csv" "invoice_*.csv" = false := by decide
example : rstripSlashes "/data/sub/" = "/data/sub" := by decide

instance {ε α : Type} [DecidableEq ε] [DecidableEq α] : DecidableEq (Except ε α) :=
  fun a b =>
    match a, b with
    | Except.ok x, Except.ok y =>
        if h : x = y then Decidable.isTrue (by rw [h])
        else Decidable.isFalse (by simp [h])
    | Except.error x, Except.error y =>
        if h : x = y then Decidable.isTrue (by rw [h])
        else Decidable.isFalse (by simp [h])
    | Except.ok _, Except.error _ => Decidable.isFalse (by simp)
    | Except.error _, Except.ok _ => Decidable.isFalse (by simp)

/-! ## SFTP remote model and `PySFTPHook`

The pysftp connection is an external collaborator; we embed the remote side
it exposes as a finite map from directory paths to listings. `RemoteFS.cd`
models `pysftp.Connection.cd`, which changes the working directory and
raises `IOError` when the directory does not exist (documented pysftp /
SFTP `chdir` behaviour); `listdir_attr` then lists the current directory.
Each listing entry carries the `st_mode`-derived flags the plugin's
`modefilter`s test (`S_ISREG`, `S_ISDIR`).
-/

/-- One entry of a remote directory listing: the `attrs.filename` plus the
`S_ISREG`/`S_ISDIR` tests on `attrs.st_mode`. -/
structure SFTPEntry where
  filename : String
  isReg : Bool
  isDir : Bool
deriving DecidableEq, Repr

/-- The remote filesystem visible through the pysftp connection: existing
directories with their listings. -/
structure RemoteFS where
  dirs : List (String × List SFTPEntry)
deriving DecidableEq, Repr

/-- Models `conn.cd(dirname)` followed by `conn.listdir_attr()`: returns
the listing, or an `IOError` when `dirname` is not a directory on the
remote. -/
def RemoteFS.cd (fs : RemoteFS) (dirname : String) : Except String (List SFTPEntry) :=
  match fs.dirs.find? (fun p => p.1 == dirname) with
  | some p => Except.ok p.2
  | none => Except.error ("IOError: no such directory: " ++ dirname)

/-- Embeds `PySFTPHook._match_basename(dirname, basepattern, modefilter)`:
`cd` into `dirname` (propagating its error), list it, and keep the
filenames passing `modefilter` whose name `fnmatch`es `basepattern`. -/
def PySFTPHook.match_basename (fs : RemoteFS) (dirname basepattern : String)
    (modefilter : SFTPEntry → Bool) : Except String (List String) :=
  match fs.cd dirname with
  | Except.error e => Except.error e
  | Except.ok attrs =>
      Except.ok ((attrs.filter
        (fun a => modefilter a && fnmatch a.filename basepattern)).map
          (fun a => a.filename))

/-- Embeds `PySFTPHook.file_exists`: split the path, match the basename in
the parent directory's listing with the `S_ISREG` filter, and report
whether any entry matched. -/
def PySFTPHook.file_exists (fs : RemoteFS) (remote_full_path : String) :
    Except String Bool :=
  let ht := posixSplit remote_full_path
  match PySFTPHook.match_basename fs ht.1 ht.2 (fun a => a.isReg) with
  | Except.error e => Except.error e
  | Except.ok basenames => Except.ok (basenames.length > 0)

/-- Embeds `PySFTPHook.folder_exists`: like `file_exists` but on the path
stripped of trailing slashes and with the `S_ISDIR` filter. -/
def PySFTPHook.folder_exists (fs : RemoteFS) (remote_full_path : String) :
    Except String Bool :=
  let ht := posixSplit (rstripSlashes remote_full_path)
  match PySFTPHook.match_basename fs ht.1 ht.2 (fun a => a.isDir) with
  | Except.error e => Except.error e
  | Except.ok basenames => Except.ok (basenames.length > 0)

/-- The remote filesystem of claim C7: one directory `/data` whose listing
holds exactly the regular files `report_2024.csv` and `report_2023.csv`. -/
def fsReports : RemoteFS :=
  ⟨[("/data",
     [⟨"report_2024.csv", true, false⟩, ⟨"report_2023.csv", true, false⟩])]⟩

/-- A remote filesystem without the directory `/missing`, for claim C2. -/
def fsNoParent : RemoteFS :=
  ⟨[("/data", [⟨"a.csv", true, false⟩, ⟨"sub", false, true⟩])]⟩

example : PySFTPHook.file_exists fsReports "/data/report_*.csv" = Except.ok true := by
  decide
example : PySFTPHook.file_exists fsReports "/data/invoice_*.csv" = Except.ok false := by
  decide
example :
    PySFTPHook.file_exists fsNoParent "/missing/a.csv"
      = Except.error "IOError: no such directory: /missing" := by decide

/-! ## The Transform Step (`FileTransformOperator.transfer` / `.transform`)

The external transform command is embedded as a function `run` from the
bytes offered to it (the content of the `f_source` temp file, fed through
standard input or as a path argument, depending on the wiring flags) to a
`RunResult`: the `subprocess.run` outcome, i.e. the process return code,
the bytes that end up in the `f_dest` temp file (via captured standard
output or via the positional path argument) and the standard-error bytes
captured through `subprocess.PIPE`.

Python's `+` distinguishes `str` from `bytes`; `PyVal`/`pyAdd` embed that:
concatenating a `str` with a `bytes` raises `TypeError` (Python 3
semantics, the runtime `subprocess.run` requires). The source's
`"Transform script failed " + self.sp.stderr` hits exactly that case,
because `CompletedProcess.stderr` is `bytes` when captured with
`stderr=subprocess.PIPE` and no text mode.
-/

/-- Outcome of `subprocess.run` on the transform command: `returncode` is
an integer (negative for signal-terminated processes, the exit status
otherwise); `stdout` is the transformed content that lands in `f_dest`;
`stderr` is the captured standard-error byte string. -/
structure RunResult where
  returncode : Int
  stdout : List Nat
  stderr : List Nat
deriving DecidableEq, Repr

/-- A Python value that is either a `str` or a `bytes` object. -/
inductive PyVal
  | str (v : String)
  | bytes (v : List Nat)
deriving DecidableEq, Repr

/-- Python's `+` on `str`/`bytes` operands: concatenation when the types
agree, `TypeError` when they do not (Python 3 semantics). -/
def pyAdd : PyVal → PyVal → Except String PyVal
  | PyVal.str a, PyVal.str b => Except.ok (PyVal.str (a ++ b))
  | PyVal.bytes a, PyVal.bytes b => Except.ok (PyVal.bytes (a ++ b))
  | PyVal.str _, PyVal.bytes _ =>
      Except.error "TypeError: can only concatenate str (not bytes) to str"
  | PyVal.bytes _, PyVal.str _ =>
      Except.error "TypeError: cannot concatenate str to bytes"

/-- An exception escaping `FileTransformOperator.transform`: either the
`AirflowException` the code means to raise, or the `TypeError` raised
while building its message. -/
inductive TransformExn
  | airflowException (msg : PyVal)
  | typeError (msg : String)
deriving DecidableEq, Repr

/-- Embeds `FileTransformOperator.transform(f_source, f_dest)`: run the
command on the source bytes; on `returncode > 0` raise
`AirflowException("Transform script failed " + sp.stderr)` — whose message
concatenation is the typed `pyAdd` — otherwise leave the command's output
in `f_dest` (returned here). -/
def FileTransformOperator.transform (run : List Nat → RunResult)
    (f_source : List Nat) : Except TransformExn (List Nat) :=
  let sp := run f_source
  if sp.returncode > 0 then
    match pyAdd (PyVal.str "Transform script failed ") (PyVal.bytes sp.stderr) with
    | Except.ok msg => Except.error (TransformExn.airflowException msg)
    | Except.error t => Except.error (TransformExn.typeError t)
  else
    Except.ok sp.stdout

/-- Splits a byte string into the chunks Python file iteration yields:
lines, each keeping its terminating newline byte (10). -/
def bytesLines : List Nat → List (List Nat)
  | [] => []
  | c :: cs =>
      match bytesLines cs with
      | [] => [[c]]
      | l :: ls => if c == 10 then [c] :: l :: ls else (c :: l) :: ls

/-- File-line iteration loses no bytes: concatenating the chunks of
`bytesLines` restores the original byte string. -/
theorem bytesLines_flatten (l : List Nat) : (bytesLines l).flatten = l := by
  induction l with
  | nil => rfl
  | cons c cs ih =>
      simp only [bytesLines]
      cases h : bytesLines cs with
      | nil =>
          rw [h] at ih
          simp [List.flatten, ← ih]
      | cons t ts =>
          rw [h] at ih
          by_cases hc : c == 10 <;> simp [hc, List.flatten, ← ih]

/-- What `FileTransformOperator.transfer(source, dest)` did to the
destination stream: the list of chunks passed to `dest.write`, and the
exception that escaped, if any. -/
structure TransferOutcome where
  destWrites : List (List Nat)
  exn : Option TransformExn
deriving DecidableEq, Repr

/-- Embeds `FileTransformOperator.transfer(source, dest)`: dump the source
stream into the `f_source` temp file, call `transform`; if it raises, the
write loop is never reached (no chunk is written to `dest`); on success
seek `f_dest` to 0 and write it to `dest` chunk by chunk (file iteration,
i.e. line chunks). -/
def FileTransformOperator.transfer (run : List Nat → RunResult)
    (source : List Nat) : TransferOutcome :=
  match FileTransformOperator.transform run source with
  | Except.error e => ⟨[], some e⟩
  | Except.ok f_dest => ⟨bytesLines f_dest, none⟩

example :
    FileTransformOperator.transfer (fun s => ⟨0, s, []⟩) [97, 10, 98]
      = ⟨[[97, 10], [98]], none⟩ := by decide
example :
    FileTransformOperator.transfer (fun _ => ⟨1, [], [98]⟩) [97]
      = ⟨[], some (TransformExn.typeError
          "TypeError: can only concatenate str (not bytes) to str")⟩ := by decide

/-! ## Local filesystem model and the `download` implementations

`LocalFS` models the local disk the hooks copy onto: regular files with
their byte content, plus the set of existing directories. `download` is
embedded as a state transformer returning the new filesystem and the
exception message, if one was raised; an exception raised before any write
returns the input filesystem unchanged, which is exactly the
"destination left untouched" observable of claim C4.
-/

/-- The local filesystem: regular files (path, content) and directories. -/
structure LocalFS where
  files : List (String × List Nat)
  dirlist : List String
deriving DecidableEq, Repr

/-- Embeds `os.path.exists(p)`: true when a file or a directory is at `p`. -/
def LocalFS.pathExists (fs : LocalFS) (p : String) : Bool :=
  (fs.files.find? (fun e => e.1 == p)).isSome || fs.dirlist.contains p

/-- Content of the file at `p`, when one is there. -/
def LocalFS.contentAt (fs : LocalFS) (p : String) : Option (List Nat) :=
  (fs.files.find? (fun e => e.1 == p)).map (fun e => e.2)

/-- Write `content` at path `dst`, replacing any previous file there. -/
def LocalFS.setFile (fs : LocalFS) (dst : String) (content : List Nat) : LocalFS :=
  ⟨(dst, content) :: fs.files.filter (fun e => e.1 != dst), fs.dirlist⟩

/-- Embeds `shutil.copyfile(src, dst)`: read the file at `src` (an error
when it is missing) and write its content at `dst`. -/
def LocalFS.copyfile (fs : LocalFS) (src dst : String) : LocalFS × Option String :=
  match fs.contentAt src with
  | none => (fs, some ("FileNotFoundError: " ++ src))
  | some c => (fs.setFile dst c, none)

/-- Embeds the module's `makedirs(path, exist_ok=True)` helper: create the
directory, succeeding silently when it already exists. -/
def LocalFS.makedirs (fs : LocalFS) (path : String) : LocalFS :=
  if fs.dirlist.contains path then fs else ⟨fs.files, path :: fs.dirlist⟩

/-- Embeds `CommonFSHook.download(remotepath, localpath, replace)`: raise
`FileExistsError` when `replace` is false and `localpath` exists, before
`copyfile` runs; otherwise copy. -/
def CommonFSHook.download (fs : LocalFS) (remotepath localpath : String)
    (replace : Bool) : LocalFS × Option String :=
  if !replace && fs.pathExists localpath then
    (fs, some ("FileExistsError: " ++ localpath))
  else
    fs.copyfile remotepath localpath

/-- Embeds `CommonFTPHookMixin.download(remotepath, localpath, replace)`:
the same `FileExistsError` guard first, then `makedirs` on the local
parent directory, then `retrieve_file` — embedded as the remote side
`retrieve`, a map from remote path to content (`none` when retrieval
fails). -/
def CommonFTPHookMixin.download (retrieve : String → Option (List Nat))
    (fs : LocalFS) (remotepath localpath : String) (replace : Bool) :
    LocalFS × Option String :=
  if !replace && fs.pathExists localpath then
    (fs, some ("FileExistsError: " ++ localpath))
  else
    let fs1 := fs.makedirs (posixSplit localpath).1
    match retrieve remotepath with
    | none => (fs1, some ("IOError: " ++ remotepath))
    | some c => (fs1.setFile localpath c, none)

example :
    CommonFSHook.download ⟨[("/tmp/out", [1])], []⟩ "/tmp/in" "/tmp/out" false
      = (⟨[("/tmp/out", [1])], []⟩, some "FileExistsError: /tmp/out") := by decide

/-! ## The Cleanup Step (`CleanupOperator`)

The deletion primitive `conn.delete` is embedded as the predicate `fails`
identifying the paths whose deletion raises; `execute` records which paths
were attempted, which were actually deleted, and the path whose deletion
raised, if any. A raise leaves the `for` loop immediately, so nothing after
the failing path is attempted.
-/

/-- The `paths` argument of `CleanupOperator.__init__`: a single string or
a list of paths. -/
inductive PathsArg
  | str (s : String)
  | list (ps : List String)
deriving DecidableEq, Repr

/-- Embeds the `__init__` normalization: a single string is wrapped into a
one-element list, a list is kept as given. -/
def CleanupOperator.initPaths : PathsArg → List String
  | PathsArg.str s => [s]
  | PathsArg.list ps => ps

/-- Observable outcome of `CleanupOperator.execute`. -/
structure CleanupOutcome where
  attempted : List String
  deleted : List String
  error : Option String
deriving DecidableEq, Repr

/-- Embeds the `for path in paths_iter: conn.delete(path)` loop of
`CleanupOperator.execute`: delete in the given order; a raising delete
(`fails path = true`) aborts the loop at that path. -/
def CleanupOperator.execute (fails : String → Bool) : List String → CleanupOutcome
  | [] => ⟨[], [], none⟩
  | p :: ps =>
      if fails p then ⟨[p], [], some p⟩
      else
        let rest := CleanupOperator.execute fails ps
        ⟨p :: rest.attempted, p :: rest.deleted, rest.error⟩

example :
    CleanupOperator.execute (fun p => p == "b")
        (CleanupOperator.initPaths (PathsArg.list ["a", "b", "c"]))
      = ⟨["a", "b"], ["a"], some "b"⟩ := by decide

/-! ## Open modes and `CommonFTPHookMixin.open` -/

/-- Embeds Python's `s.startswith(pre)` (over the character lists, so that
the definition evaluates inside the kernel). -/
def strStartsWith (s pre : String) : Bool :=
  pre.toList.isPrefixOf s.toList

/-- Embeds Python's `c in s` membership test for a single character. -/
def strContainsChar (s : String) (c : Char) : Bool :=
  s.toList.contains c

/-- The dictionary `CommonFileHook.parse_mode` builds from a mode string. -/
structure ModeParams where
  is_binary : Bool
  can_read : Bool
  can_write : Bool
  replace : Bool
deriving DecidableEq, Repr

/-- Embeds `CommonFileHook.parse_mode(mode)`. -/
def CommonFileHook.parse_mode (mode : String) : ModeParams :=
  { is_binary := strContainsChar mode 'b'
    can_read := mode.toList.isEmpty || strStartsWith mode "r"
    can_write := strStartsWith mode "w" || strStartsWith mode "r+" ||
      strStartsWith mode "a"
    replace := strStartsWith mode "w" }

/-- The stream `CommonFTPHookMixin.open` yields: the read stream of
`_open_for_read` or the write stream of `_open_for_write`. -/
inductive FTPStream
  | readStream
  | writeStream
deriving DecidableEq, Repr

/-- Embeds `CommonFTPHookMixin.open(remotepath, mode)`: raise on a
read+write combination (as classified by `parse_mode`), raise on a
non-truncating write (append), otherwise yield the read or write stream;
when no branch applies the Python function falls off the end and returns
`None` (embedded as `Except.ok none`). -/
def CommonFTPHookMixin.open (mode : String) : Except String (Option FTPStream) :=
  let mode_params := CommonFileHook.parse_mode mode
  if mode_params.can_read && mode_params.can_write then
    Except.error "NotImplementedError: Cannot open a read/write FTP stream."
  else if mode_params.can_write && !mode_params.replace then
    Except.error "NotImplementedError: Cannot append to a file over FTP."
  else if mode_params.can_read then
    Except.ok (some FTPStream.readStream)
  else if mode_params.can_write then
    Except.ok (some FTPStream.writeStream)
  else
    Except.ok none

/-- Modelled from the spec (and from the Python `open` documentation, the
contract `CommonFileHook.open`'s docstring names): a mode string requests
simultaneous read and write exactly when it carries the `+` update flag. -/
def modeRequestsReadWrite (mode : String) : Bool :=
  strContainsChar mode '+'

example : CommonFTPHookMixin.open "rb" = Except.ok (some FTPStream.readStream) := by
  decide
example : CommonFTPHookMixin.open "w" = Except.ok (some FTPStream.writeStream) := by
  decide
example : (CommonFTPHookMixin.open "r+").toOption = none := by decide
example : (CommonFTPHookMixin.open "a").toOption = none := by decide
example : CommonFTPHookMixin.open "w+" = Except.ok (some FTPStream.writeStream) := by
  decide

/-! ## Availability sensors

`check_source` returns the hook's boolean and emits one log line; `poke`
returns `check_source()`'s value. The hook's `file_exists`/`folder_exists`
result is the `Bool` parameter.
-/

/-- Embeds `FileAvailabilitySensor.check_source`: the returned boolean
paired with the log line the branch emits. -/
def FileAvailabilitySensor.check_source (file_exists_res : Bool) : Bool × String :=
  if file_exists_res then (true, "File exist.")
  else (false, "File does not exist.")

/-- Embeds `FileAvailabilitySensor.poke`: returns `check_source()`. -/
def FileAvailabilitySensor.poke (file_exists_res : Bool) : Bool :=
  (FileAvailabilitySensor.check_source file_exists_res).1

/-- Embeds `FolderAvailabilitySensor.check_source`: note the log wording
is inverted in the source, while the returned boolean tracks
`folder_exists`. -/
def FolderAvailabilitySensor.check_source (folder_exists_res : Bool) : Bool × String :=
  if folder_exists_res then (true, "Folder does not exist.")
  else (false, "Folder exists.")

/-- Embeds `FolderAvailabilitySensor.poke` (inherited `poke` dispatching to
the folder `check_source`). -/
def FolderAvailabilitySensor.poke (folder_exists_res : Bool) : Bool :=
  (FolderAvailabilitySensor.check_source folder_exists_res).1

/-! ## Backend registry and operator construction -/

/-- The four hook classes the registry can return. -/
inductive HookClass
  | commonFTPHook
  | commonFTPSHook
  | commonS3Hook
  | commonFSHook
deriving DecidableEq, Repr

/-- Embeds `CommonFileHook.by_type(conn_type)`: the dictionary literal
lookup `{...}[conn_type]`, raising `KeyError` on any tag outside the four
entries. -/
def CommonFileHook.by_type (conn_type : String) : Except String HookClass :=
  if conn_type == "ftp" then Except.ok HookClass.commonFTPHook
  else if conn_type == "sftp" then Except.ok HookClass.commonFTPSHook
  else if conn_type == "s3" then Except.ok HookClass.commonS3Hook
  else if conn_type == "local" then Except.ok HookClass.commonFSHook
  else Except.error ("KeyError: " ++ conn_type)

/-- The state `FileDownloadOperator.__init__` leaves on the operator. -/
structure FileDownloadOperator where
  source_type : String
  source_conn_id : Option String
  source_path : String
  SourceHook : HookClass
  dest_path : Option String
deriving DecidableEq, Repr

/-- Embeds `FileDownloadOperator.__init__`: stores the configuration and
resolves `SourceHook = CommonFileHook.by_type(source_type)` — so an
unknown `source_type` makes construction itself raise `KeyError`, before
any `execute` call or I/O. -/
def FileDownloadOperator.init (source_type source_path : String)
    (source_conn_id dest_path : Option String) :
    Except String FileDownloadOperator :=
  match CommonFileHook.by_type source_type with
  | Except.error e => Except.error e
  | Except.ok hk =>
      Except.ok ⟨source_type, source_conn_id, source_path, hk, dest_path⟩

example : (FileDownloadOperator.init "http" "/a" none none).toOption = none := by
  decide
example :
    (FileDownloadOperator.init "sftp" "/a" (some "conn") none).toOption.isSome
      = true := by decide

/-! ## Temporary destination creation in the download operators

`create_temp_dest` (identical bodies in `FileDownloadOperator` and
`FolderDownloadOperator`) calls `tempfile.mkstemp()` — which creates a
regular temporary FILE and returns the pair `(fd, path)` — and then reads
`dest.name` off that return value. A Python tuple has no `name` attribute
(nor a `close` method), so the lookup raises `AttributeError`; `tupleAttrs`
records the attribute names a tuple does expose, so the lookup is embedded
as a real membership test. (The enclosing `except e:` clause then evaluates
the unbound name `e` and turns the failure into a `NameError`; either way
no path is produced.)
-/

/-- The kind of filesystem object a temp-creation primitive makes. -/
inductive TempKind
  | file
  | dir
deriving DecidableEq, Repr

/-- `tempfile.mkstemp()` return value: the `(fd, path)` pair. -/
structure MkstempReturn where
  fd : Nat
  path : String
deriving DecidableEq, Repr

/-- `tempfile.mkstemp()` creates a regular temporary file. -/
def mkstempKind : TempKind := TempKind.file

/-- Data attribute/method names a Python tuple instance exposes. -/
def tupleAttrs : List String := ["count", "index"]

/-- Embeds `FileDownloadOperator.create_temp_dest`: `dest = mkstemp()`,
then `self.dest_path = dest.name` — an attribute lookup on the tuple,
which succeeds only if tuples had a `name` attribute. -/
def FileDownloadOperator.create_temp_dest (dest : MkstempReturn) :
    Except String String :=
  if tupleAttrs.contains "name" then Except.ok dest.path
  else Except.error "AttributeError: tuple object has no attribute name"

/-- Embeds `FolderDownloadOperator.create_temp_dest`: the identical body —
in particular it also calls `mkstemp`, not `mkdtemp`. -/
def FolderDownloadOperator.create_temp_dest (dest : MkstempReturn) :
    Except String String :=
  if tupleAttrs.contains "name" then Except.ok dest.path
  else Except.error "AttributeError: tuple object has no attribute name"

/-- The kind of temporary object `FolderDownloadOperator.create_temp_dest`
asks the system for: it calls `mkstemp`. -/
def FolderDownloadOperator.tempDestKind : TempKind := mkstempKind

/-! ## Claim theorems -/

/-- C1: when the transform command exits with a non-zero status, the step
raises before the destination write loop (no chunk reaches the
destination stream) — but the exception actually raised is the `TypeError`
from concatenating the `str` message prefix with the `bytes` stderr, not
an `AirflowException` carrying the stderr text. -/
theorem C1_transform_nonzero_exit (run : List Nat → RunResult)
    (source : List Nat) (status : Nat) (hpos : status ≠ 0)
    (hexit : (run source).returncode = (status : Int)) :
    (FileTransformOperator.transfer run source).destWrites = [] ∧
    (FileTransformOperator.transfer run source).exn
      = some (TransformExn.typeError
          "TypeError: can only concatenate str (not bytes) to str") := by
  have hgt : (run source).returncode > 0 := by
    rw [hexit]
    exact_mod_cast Nat.pos_of_ne_zero hpos
  unfold FileTransformOperator.transfer FileTransformOperator.transform
  simp [pyAdd, if_pos hgt]

/-- Witness for C1 at a command that exits with status 1 and stderr
`b"boom"`. -/
theorem C1_transform_nonzero_exit_witness :
    (FileTransformOperator.transfer
        (fun _ => ⟨1, [], [98, 111, 111, 109]⟩) [97]).destWrites = [] ∧
    (FileTransformOperator.transfer
        (fun _ => ⟨1, [], [98, 111, 111, 109]⟩) [97]).exn
      = some (TransformExn.typeError
          "TypeError: can only concatenate str (not bytes) to str") :=
  C1_transform_nonzero_exit (fun _ => ⟨1, [], [98, 111, 111, 109]⟩) [97] 1
    (by decide) (by decide)

/-- C2 counterexample: against a remote where the directory `/missing`
does not exist, `file_exists`/`folder_exists` propagate the `IOError`
from `cd` instead of returning `false`. -/
theorem C2_missing_parent_counterexample :
    PySFTPHook.file_exists fsNoParent "/missing/a.csv"
        = Except.error "IOError: no such directory: /missing" ∧
    PySFTPHook.folder_exists fsNoParent "/missing/sub"
        = Except.error "IOError: no such directory: /missing" ∧
    PySFTPHook.file_exists fsNoParent "/missing/a.csv" ≠ Except.ok false ∧
    PySFTPHook.folder_exists fsNoParent "/missing/sub" ≠ Except.ok false := by
  decide

/-- C2, amended: whenever the parent directory of the queried path does
not exist on the remote (so `cd` fails), `file_exists` and `folder_exists`
raise (return no boolean at all) rather than returning `false`. -/
theorem C2_missing_parent_raises (fs : RemoteFS) (path folderpath : String)
    (h1 : (fs.cd (posixSplit path).1).toOption = none)
    (h2 : (fs.cd (posixSplit (rstripSlashes folderpath)).1).toOption = none) :
    (PySFTPHook.file_exists fs path).toOption = none ∧
    (PySFTPHook.folder_exists fs folderpath).toOption = none := by
  constructor
  · cases hcd : RemoteFS.cd fs (posixSplit path).1 with
    | error e =>
        simp [PySFTPHook.file_exists, PySFTPHook.match_basename, hcd,
          Except.toOption]
    | ok v => rw [hcd] at h1; simp [Except.toOption] at h1
  · cases hcd : RemoteFS.cd fs (posixSplit (rstripSlashes folderpath)).1 with
    | error e =>
        simp [PySFTPHook.folder_exists, PySFTPHook.match_basename, hcd,
          Except.toOption]
    | ok v => rw [hcd] at h2; simp [Except.toOption] at h2

/-- Witness for the amended C2 at a concrete remote without `/missing`. -/
theorem C2_missing_parent_raises_witness :
    (PySFTPHook.file_exists fsNoParent "/missing/b.csv").toOption = none ∧
    (PySFTPHook.folder_exists fsNoParent "/missing/sub/").toOption = none :=
  C2_missing_parent_raises fsNoParent "/missing/b.csv" "/missing/sub/"
    (by decide) (by decide)

/-- C3: `create_temp_dest` never produces a destination path — `mkstemp()`
returns an `(fd, path)` tuple, so the `dest.name` attribute lookup raises —
and the folder variant asks `mkstemp` for a temporary FILE, not a
directory. -/
theorem C3_create_temp_dest_broken (dest : MkstempReturn) :
    FileDownloadOperator.create_temp_dest dest
        = Except.error "AttributeError: tuple object has no attribute name" ∧
    FolderDownloadOperator.create_temp_dest dest
        = Except.error "AttributeError: tuple object has no attribute name" ∧
    FolderDownloadOperator.tempDestKind ≠ TempKind.dir := by
  refine ⟨rfl, rfl, by decide⟩

/-- C4: with `replace = false` and an existing local destination, both
`download` implementations raise `FileExistsError` before touching
anything: the filesystem, and in particular the destination's content, is
exactly what it was. -/
theorem C4_download_no_replace_untouched (fs : LocalFS)
    (retrieve : String → Option (List Nat)) (remotepath localpath : String)
    (h : fs.pathExists localpath = true) :
    CommonFSHook.download fs remotepath localpath false
        = (fs, some ("FileExistsError: " ++ localpath)) ∧
    CommonFTPHookMixin.download retrieve fs remotepath localpath false
        = (fs, some ("FileExistsError: " ++ localpath)) ∧
    (CommonFSHook.download fs remotepath localpath false).1.contentAt localpath
        = fs.contentAt localpath ∧
    (CommonFTPHookMixin.download retrieve fs remotepath localpath
        false).1.contentAt localpath
        = fs.contentAt localpath := by
  refine ⟨?_, ?_, ?_, ?_⟩ <;>
    simp [CommonFSHook.download, CommonFTPHookMixin.download, h]

/-- Witness for C4 on a disk already holding `/tmp/out`. -/
theorem C4_download_no_replace_untouched_witness :
    CommonFSHook.download ⟨[("/tmp/out", [1, 2])], []⟩ "/tmp/in" "/tmp/out" false
        = (⟨[("/tmp/out", [1, 2])], []⟩, some ("FileExistsError: " ++ "/tmp/out")) ∧
    CommonFTPHookMixin.download (fun _ => none) ⟨[("/tmp/out", [1, 2])], []⟩
        "/tmp/in" "/tmp/out" false
        = (⟨[("/tmp/out", [1, 2])], []⟩, some ("FileExistsError: " ++ "/tmp/out")) ∧
    (CommonFSHook.download ⟨[("/tmp/out", [1, 2])], []⟩ "/tmp/in" "/tmp/out"
        false).1.contentAt "/tmp/out"
        = (⟨[("/tmp/out", [1, 2])], []⟩ : LocalFS).contentAt "/tmp/out" ∧
    (CommonFTPHookMixin.download (fun _ => none) ⟨[("/tmp/out", [1, 2])], []⟩
        "/tmp/in" "/tmp/out" false).1.contentAt "/tmp/out"
        = (⟨[("/tmp/out", [1, 2])], []⟩ : LocalFS).contentAt "/tmp/out" :=
  C4_download_no_replace_untouched ⟨[("/tmp/out", [1, 2])], []⟩ (fun _ => none)
    "/tmp/in" "/tmp/out" (by decide)

/-- C5: the Cleanup Step accepts one path or a list; it deletes in the
given order, deleting exactly the prefix before the first failing path,
attempting that failing path and nothing after it — instantiated at
`["a", "b", "c"]` with `"b"` failing. -/
theorem C5_cleanup_fail_fast :
    (∀ (arg : PathsArg) (fails : String → Bool),
      (CleanupOperator.execute fails (CleanupOperator.initPaths arg)).deleted
          = (CleanupOperator.initPaths arg).takeWhile (fun p => !fails p) ∧
      (CleanupOperator.execute fails (CleanupOperator.initPaths arg)).error
          = (CleanupOperator.initPaths arg).find? fails ∧
      (CleanupOperator.execute fails (CleanupOperator.initPaths arg)).attempted
          = (CleanupOperator.initPaths arg).takeWhile (fun p => !fails p)
              ++ ((CleanupOperator.initPaths arg).find? fails).toList) ∧
    CleanupOperator.execute (fun p => p == "b")
        (CleanupOperator.initPaths (PathsArg.list ["a", "b", "c"]))
      = ⟨["a", "b"], ["a"], some "b"⟩ := by
  constructor
  · intro arg fails
    generalize CleanupOperator.initPaths arg = ps
    induction ps with
    | nil => exact ⟨rfl, rfl, rfl⟩
    | cons p ps ih =>
        obtain ⟨ih1, ih2, ih3⟩ := ih
        by_cases h : fails p <;>
          simp [CleanupOperator.execute, h, ih1, ih2, ih3]
  · decide

/-- C6: the FTP/SFTP `open` does reject `r+` (read+write) and `a`
(append) at open time, but the mode `w+` — which also requests
simultaneous read and write under the Python `open` semantics the hook's
docstring promises — slips through and yields a write stream. -/
theorem C6_open_wplus_not_rejected :
    modeRequestsReadWrite "w+" = true ∧
    CommonFTPHookMixin.open "w+" = Except.ok (some FTPStream.writeStream) ∧
    (CommonFTPHookMixin.open "r+").toOption = none ∧
    (CommonFTPHookMixin.open "a").toOption = none := by
  decide

/-- C7: against a remote directory listing exactly the regular files
`report_2024.csv` and `report_2023.csv`, the wildcard existence check
(parent-directory listing + basename pattern match) answers `true` for
`report_*.csv` and `false` for `invoice_*.csv`. -/
theorem C7_wildcard_file_exists :
    PySFTPHook.file_exists fsReports "/data/report_*.csv" = Except.ok true ∧
    PySFTPHook.file_exists fsReports "/data/invoice_*.csv" = Except.ok false := by
  decide

/-- C8: with a transform command that echoes its input unchanged and exits
0, the bytes written to the destination stream concatenate to exactly the
source content, for every source content. -/
theorem C8_identity_transform (run : List Nat → RunResult)
    (hidentity : ∀ s, run s = ⟨0, s, []⟩) (source : List Nat) :
    (FileTransformOperator.transfer run source).exn = none ∧
    (FileTransformOperator.transfer run source).destWrites.flatten = source := by
  unfold FileTransformOperator.transfer FileTransformOperator.transform
  rw [hidentity]
  exact ⟨by simp, by simp [bytesLines_flatten]⟩

/-- Witness for C8 at sources of size 0, size 1, and size 9000 (larger
than one 8192-byte chunk buffer). -/
theorem C8_identity_transform_witness :
    (FileTransformOperator.transfer (fun s => ⟨0, s, []⟩)
        []).destWrites.flatten = ([] : List Nat) ∧
    (FileTransformOperator.transfer (fun s => ⟨0, s, []⟩)
        [97]).destWrites.flatten = [97] ∧
    (FileTransformOperator.transfer (fun s => ⟨0, s, []⟩)
        (List.replicate 9000 65)).destWrites.flatten = List.replicate 9000 65 :=
  ⟨(C8_identity_transform (fun s => ⟨0, s, []⟩) (fun _ => rfl) []).2,
   (C8_identity_transform (fun s => ⟨0, s, []⟩) (fun _ => rfl) [97]).2,
   (C8_identity_transform (fun s => ⟨0, s, []⟩) (fun _ => rfl)
     (List.replicate 9000 65)).2⟩

/-- C9: each sensor's `poke` returns exactly the backend's
`file_exists`/`folder_exists` boolean — even though the folder sensor's
log wording is inverted relative to that boolean. -/
theorem C9_sensor_poke_boolean (b : Bool) :
    FileAvailabilitySensor.poke b = b ∧
    FolderAvailabilitySensor.poke b = b ∧
    (FolderAvailabilitySensor.check_source true).2 = "Folder does not exist." ∧
    (FolderAvailabilitySensor.check_source false).2 = "Folder exists." := by
  cases b <;> exact ⟨rfl, rfl, rfl, rfl⟩

/-- C10: the registry accepts exactly the tags `ftp`, `sftp`, `s3` and
`local` (raising `KeyError` otherwise), and `FileDownloadOperator`
construction succeeds exactly when the registry lookup does, so an unknown
backend type fails at construction time. -/
theorem C10_registry_construction (conn_type source_path : String)
    (source_conn_id dest_path : Option String) :
    ((CommonFileHook.by_type conn_type).toOption.isSome
        = (conn_type == "ftp" || conn_type == "sftp" || conn_type == "s3" ||
            conn_type == "local")) ∧
    ((FileDownloadOperator.init conn_type source_path source_conn_id
        dest_path).toOption.isSome
        = (CommonFileHook.by_type conn_type).toOption.isSome) := by
  constructor
  · unfold CommonFileHook.by_type
    repeat' split
    all_goals simp_all [Except.toOption]
  · cases h : CommonFileHook.by_type conn_type <;>
      simp [FileDownloadOperator.init, h, Except.toOption]

end PhlAirflow
